import Mathlib

/-!
Verification of the debounced remote typeahead of
src/static/js/typeahead.js: the datalist-backed suggestion search and
the selection resolution that writes a backend identifier into a
companion hidden field.
-/

namespace RadioSpins

/-- A search endpoint result entry: the backend returns a JSON array of
objects carrying a stable identifier and a human-readable label; the
search callback consumes item.id and item.label (typeahead.js, success
branch). -/
structure SearchResult where
  id : String
  label : String
deriving DecidableEq

/-- A datalist option element as managed by the typeahead: opt.value
holds the display text and opt.dataset.id optionally holds the backend
identifier (none when the data-id attribute is absent). -/
structure OptionEl where
  value : String
  dataId : Option String
deriving DecidableEq

/-- Option creation in the success branch of the search callback
(typeahead.js lines 21-25): opt.value := item.label and
opt.dataset.id := item.id. -/
def mkOption (item : SearchResult) : OptionEl :=
  ⟨item.label, some item.id⟩

/-- The expression o.dataset.id with the fallback to the empty string
used by resolveSelection (line 36): an absent attribute and the empty
string are both falsy and give the empty string; any other stored
string is returned unchanged. -/
def OptionEl.effId (o : OptionEl) : String :=
  match o.dataId with
  | none => ""
  | some s => if s = "" then "" else s

/-- The scan loop of resolveSelection (lines 33-38): walk the options
in document order; at the first option whose value strictly equals the
input text return its effective id and stop; if no option matches,
the accumulator keeps its initial value, the empty string. -/
def findId (val : String) : List OptionEl → String
  | [] => ""
  | o :: rest => if o.value = val then o.effId else findId val rest

/-- The mutable state of one typeahead binding: the text input value,
the datalist contents in document order, the hidden field value, and
the queries whose fetch is still in flight. -/
structure St where
  text : String
  suggestions : List OptionEl
  hidden : String
  inflight : List String
deriving DecidableEq

/-- State of a freshly initialized binding: empty input, a newly
created empty datalist, empty hidden field, no request in flight. -/
def init : St := ⟨"", [], "", []⟩

/-- resolveSelection (lines 31-39): read input.value, scan the current
options, and assign the result to hidden.value. Only the hidden field
is mutated. -/
def resolveSelection (st : St) : St :=
  { st with hidden := findId st.text st.suggestions }

/-- Outcome of one fetch issued by the search callback: the transport
can fail (the awaited fetch rejects), the HTTP status can be non-ok,
the body can fail to parse (r.json() rejects), or a result list is
returned. -/
inductive FetchOutcome where
  | transportError
  | httpError
  | parseError
  | success (results : List SearchResult)
deriving DecidableEq

/-- An outcome that yields no usable result list. -/
def FetchOutcome.isErr : FetchOutcome → Bool
  | .success _ => false
  | _ => true

/-- Synchronous head of the debounced search callback (lines 15-17)
running with captured query q: when q is empty (the guard demands a
falsy value or length below one, which for a string is exactly
emptiness) the datalist is cleared and the callback returns without
fetching; otherwise a fetch for q is started and is now in flight. -/
def fireSearch (q : String) (st : St) : St :=
  if q = "" then { st with suggestions := [] }
  else { st with inflight := st.inflight ++ [q] }

/-- Resumption of the search callback once the fetch for q settles
(lines 17-26); it only happens for a fetch that is actually in flight.
When the transport fails or the body does not parse, the await throws
out of the async callback and the datalist is never touched; on a
non-ok status the callback returns at line 18 before touching it; on
success the datalist is emptied and repopulated with one option per
result, in response order. In no branch does the callback touch the
hidden field, retry, or surface an exception to its caller. -/
def applyResponse (q : String) (o : FetchOutcome) (st : St) : St :=
  if st.inflight.contains q then
    let stp := { st with inflight := st.inflight.erase q }
    match o with
    | .success js => { stp with suggestions := js.map mkOption }
    | _ => stp
  else st

/-- Events of one binding, each running to completion on the single UI
thread: a keystroke updating the input text, the debounced search
callback starting with a captured query, a pending fetch settling, and
the change or blur handler running resolveSelection. -/
inductive Ev where
  | input (s : String)
  | fire (q : String)
  | respond (q : String) (o : FetchOutcome)
  | resolve
deriving DecidableEq

/-- Effect of one event on the binding state. -/
def step (st : St) : Ev → St
  | .input s => { st with text := s }
  | .fire q => fireSearch q st
  | .respond q o => applyResponse q o st
  | .resolve => resolveSelection st

/-- Run a sequence of events from a state. -/
def run (st : St) (evs : List Ev) : St := evs.foldl step st

/-- A keystroke for the timing model: the instant (ms) at which the
input listener calls the debounced search, and the input text it
passes. -/
structure Keystroke where
  time : Nat
  text : String
deriving DecidableEq

/-- debounce(fn, ms) (typeahead.js line 1): every call clears the
pending timer and schedules fn with the new argument ms later. For
calls listed in time order this yields the invocations of fn that
actually happen, each as the instant it runs and the argument it
receives: a timer whose deadline lies strictly after the next call is
cancelled by clearTimeout before it can fire. -/
def debounceFires (ms : Nat) : List Keystroke → List Keystroke
  | [] => []
  | [k] => [⟨k.time + ms, k.text⟩]
  | k :: k2 :: rest =>
    if k2.time < k.time + ms then debounceFires ms (k2 :: rest)
    else ⟨k.time + ms, k.text⟩ :: debounceFires ms (k2 :: rest)

/-- A burst: keystroke times strictly increase and each keystroke
falls strictly within ms of the previous one, so every pending timer
is cleared before its deadline except the last. -/
def burstB (ms : Nat) : List Keystroke → Bool
  | [] => true
  | [_] => true
  | k :: k2 :: rest =>
    decide (k.time < k2.time) && decide (k2.time < k.time + ms) && burstB ms (k2 :: rest)

/-- The network requests issued when the search callback runs with
query text q: none when q is empty (line 16), exactly one fetch
carrying q otherwise (line 17). -/
def searchRequests (q : String) : List String :=
  if q = "" then [] else [q]

/-- All requests a keystroke sequence causes: those issued by the
debounced invocations that actually fire. -/
def burstRequests (ms : Nat) (ks : List Keystroke) : List String :=
  ((debounceFires ms ks).map (fun k => searchRequests k.text)).flatten

/-- The last keystroke of k :: ks. -/
def lastK (k : Keystroke) : List Keystroke → Keystroke
  | [] => k
  | k2 :: rest => lastK k2 rest

theorem effId_mkOption (r : SearchResult) : (mkOption r).effId = r.id := by
  by_cases h : r.id = "" <;> simp [mkOption, OptionEl.effId, h]

theorem findId_eq_find? (val : String) (l : List OptionEl) :
    findId val l =
      match l.find? (fun o => o.value == val) with
      | none => ""
      | some o => o.effId := by
  induction l with
  | nil => rfl
  | cons o rest ih =>
    by_cases h : o.value = val
    · simp [findId, List.find?, h]
    · have hb : (o.value == val) = false := beq_eq_false_iff_ne.mpr h
      simp only [findId, List.find?, hb, if_neg h, ih]

theorem debounceFires_burst (ms : Nat) (ks : List Keystroke) :
    ∀ k, burstB ms (k :: ks) = true →
      debounceFires ms (k :: ks) = [⟨(lastK k ks).time + ms, (lastK k ks).text⟩] := by
  induction ks with
  | nil => intro k _; rfl
  | cons k2 rest ih =>
    intro k h
    simp only [burstB, Bool.and_eq_true, decide_eq_true_eq] at h
    have hfire := ih k2 h.2
    simp only [debounceFires, lastK, if_pos h.1.2]
    exact hfire

/-- An event trace exhibiting the stale-response race: the debounced
search fires for query a, fires again later for query ab, the response
for ab arrives and is applied, then the slower response for a
arrives. -/
def c1Trace : List Ev :=
  [Ev.fire "a", Ev.fire "ab",
   Ev.respond "ab" (FetchOutcome.success [⟨"2", "Abba"⟩]),
   Ev.respond "a" (FetchOutcome.success [⟨"1", "Ace"⟩])]

/-- Claim C1 fails on the code: after the response for the newer query
ab has been applied (first conjunct, the state after three events),
the late response for the older query a overwrites the suggestion list
with its own results (second conjunct), which differ from the results
of ab (third conjunct). The search callback has no request tagging and
unconditionally repopulates the datalist on any successful response. -/
theorem C1_stale_response_overwrites :
    (run init (c1Trace.take 3)).suggestions = [mkOption ⟨"2", "Abba"⟩] ∧
    (run init c1Trace).suggestions = [mkOption ⟨"1", "Ace"⟩] ∧
    mkOption (⟨"1", "Ace"⟩ : SearchResult) ≠ mkOption ⟨"2", "Abba"⟩ := by
  refine ⟨rfl, rfl, by decide⟩

/-- An event trace reaching a state that violates the claimed global
invariant: the user types Alice, the search for it succeeds, a change
event resolves the selection to identifier 1, and then the user edits
the text to Ali without a further change or blur event. -/
def c2Trace : List Ev :=
  [Ev.input "Alice", Ev.fire "Alice",
   Ev.respond "Alice" (FetchOutcome.success [⟨"1", "Alice"⟩]),
   Ev.resolve, Ev.input "Ali"]

/-- Claim C2 counterexample: in the reachable state after c2Trace the
input text Ali equals no suggestion label, yet the hidden field still
holds 1, because resolveSelection only runs on change and blur events
and no such event has happened since the edit. The invariant therefore
does not hold in every reachable state. -/
theorem C2_invariant_fails_mid_edit :
    (run init c2Trace).text = "Ali" ∧
    (∀ o ∈ (run init c2Trace).suggestions, o.value ≠ (run init c2Trace).text) ∧
    (run init c2Trace).hidden = "1" := by
  refine ⟨rfl, by decide, rfl⟩

/-- Claim C2 amended: immediately after every selection-resolution
event (change or blur), the hidden field is empty whenever the input
text equals no option value in the current suggestion list, and equals
the first matching option's stored effective id when a match exists. -/
theorem C2_invariant_after_resolution (evs : List Ev) :
    ((∀ o ∈ (run init evs).suggestions, o.value ≠ (run init evs).text) →
        (run init (evs ++ [Ev.resolve])).hidden = "") ∧
    (∀ o, (run init evs).suggestions.find?
          (fun x => x.value == (run init evs).text) = some o →
        (run init (evs ++ [Ev.resolve])).hidden = o.effId) := by
  have hrun : run init (evs ++ [Ev.resolve]) = resolveSelection (run init evs) := by
    simp [run, List.foldl_append, step]
  rw [hrun]
  constructor
  · intro hno
    have hfind : (run init evs).suggestions.find?
        (fun x => x.value == (run init evs).text) = none := by
      rw [List.find?_eq_none]
      intro x hx
      simpa using hno x hx
    simp [resolveSelection, findId_eq_find?, hfind]
  · intro o ho
    simp [resolveSelection, findId_eq_find?, ho]

/-- Claim C2 amended, witnessed on c2Trace extended by one more change
event: resolution then erases the stale identifier. -/
theorem C2_invariant_after_resolution_w :
    (run init (c2Trace ++ [Ev.resolve])).hidden = "" :=
  (C2_invariant_after_resolution c2Trace).1 (by decide)

/-- Claim C3 counterexample: a lone keystroke with empty text at time
0 makes the debounced search callback, the code that performs the
clear of the suggestion list, run at time 150, not at time 0: the
empty-query guard sits inside the debounced callback, so the clear is
subject to the full 150 ms debounce delay and is not synchronous with
the keystroke. -/
theorem C3_empty_clear_is_debounced :
    (debounceFires 150 [⟨0, ""⟩]).map Keystroke.time = [150] ∧ (150 : Nat) ≠ 0 := by
  refine ⟨rfl, by decide⟩

/-- Claim C3 amended: for empty input text the debounced search
callback runs once, 150 ms after the keystroke; when it runs it clears
the suggestion list and returns before the fetch, so no network
request is issued and the hidden field and in-flight set are left
unchanged. -/
theorem C3_empty_query_no_request (st : St) (t : Nat) :
    debounceFires 150 [⟨t, ""⟩] = [⟨t + 150, ""⟩] ∧
    (fireSearch "" st).suggestions = [] ∧
    (fireSearch "" st).hidden = st.hidden ∧
    (fireSearch "" st).inflight = st.inflight ∧
    searchRequests "" = [] := by
  refine ⟨rfl, ?_, ?_, ?_, rfl⟩ <;> simp [fireSearch]

theorem findId_map_mkOption (val : String) (js : List SearchResult) :
    findId val (js.map mkOption) =
      match js.find? (fun r => r.label == val) with
      | none => ""
      | some r => r.id := by
  induction js with
  | nil => rfl
  | cons r rest ih =>
    by_cases h : r.label = val
    · by_cases hid : r.id = "" <;>
        simp [findId, List.find?, mkOption, h, OptionEl.effId, hid]
    · have hb : (r.label == val) = false := beq_eq_false_iff_ne.mpr h
      simp only [List.map_cons, findId, List.find?, mkOption, hb, ih]
      rw [if_neg h]

/-- Claim C4: when the suggestion list was populated from the result
set js, resolution writes the empty string into the hidden field if no
entry of js has a label equal to the input text, and writes the id of
an entry of js whose label equals the input text if one exists. -/
theorem C4_resolution_exact_match (st : St) (js : List SearchResult)
    (hs : st.suggestions = js.map mkOption) :
    ((∀ r ∈ js, r.label ≠ st.text) → (resolveSelection st).hidden = "") ∧
    ((∃ r ∈ js, r.label = st.text) →
      ∃ r ∈ js, r.label = st.text ∧ (resolveSelection st).hidden = r.id) := by
  have hh : (resolveSelection st).hidden =
      match js.find? (fun r => r.label == st.text) with
      | none => ""
      | some r => r.id := by
    simp [resolveSelection, hs, findId_map_mkOption]
  constructor
  · intro hno
    have hfind : js.find? (fun r => r.label == st.text) = none := by
      rw [List.find?_eq_none]
      intro x hx
      simpa using hno x hx
    simp [hh, hfind]
  · rintro ⟨r, hr, hlab⟩
    cases hcase : js.find? (fun x => x.label == st.text) with
    | none =>
      rw [List.find?_eq_none] at hcase
      exact absurd (by simpa using hlab) (hcase r hr)
    | some r0 =>
      refine ⟨r0, List.mem_of_find?_eq_some hcase, ?_, by simp [hh, hcase]⟩
      simpa using List.find?_some hcase

/-- The example suggestion set of the spec. -/
def exampleSet : List SearchResult := [⟨"1", "Alice"⟩, ⟨"2", "Bob"⟩]

/-- Claim C4 witness on the spec's example: with the suggestion set
holding Alice and Bob, text Bob resolves to the id of a matching
entry, concretely 2, and text bo resolves to the empty string. -/
theorem C4_resolution_exact_match_w :
    (∃ r ∈ exampleSet, r.label = "Bob" ∧
      (resolveSelection ⟨"Bob", exampleSet.map mkOption, "", []⟩).hidden = r.id) ∧
    (resolveSelection ⟨"Bob", exampleSet.map mkOption, "", []⟩).hidden = "2" ∧
    (resolveSelection ⟨"bo", exampleSet.map mkOption, "", []⟩).hidden = "" := by
  refine ⟨(C4_resolution_exact_match ⟨"Bob", exampleSet.map mkOption, "", []⟩
             exampleSet rfl).2 ⟨⟨"2", "Bob"⟩, by decide, rfl⟩,
          rfl,
          (C4_resolution_exact_match ⟨"bo", exampleSet.map mkOption, "", []⟩
             exampleSet rfl).1 (by decide)⟩

/-- Claim C5: in a burst of keystrokes whose times strictly increase
with each keystroke strictly within 150 ms of the previous one, and
whose last text is nonempty, the debounced search callback fires
exactly once, with the last keystroke's text, and exactly one network
request is issued over the whole burst, carrying that text. -/
theorem C5_burst_single_request (k : Keystroke) (ks : List Keystroke)
    (hb : burstB 150 (k :: ks) = true)
    (hq : (lastK k ks).text ≠ "") :
    (debounceFires 150 (k :: ks)).map Keystroke.text = [(lastK k ks).text] ∧
    burstRequests 150 (k :: ks) = [(lastK k ks).text] := by
  have h := debounceFires_burst 150 ks k hb
  refine ⟨by simp [h], ?_⟩
  simp [burstRequests, h, searchRequests, hq]

/-- Claim C5 witness: typing a, ab, abc at times 0, 60, 120 fires the
search once and issues exactly one request, for abc. -/
theorem C5_burst_single_request_w :
    (debounceFires 150 [⟨0, "a"⟩, ⟨60, "ab"⟩, ⟨120, "abc"⟩]).map Keystroke.text
        = ["abc"] ∧
    burstRequests 150 [⟨0, "a"⟩, ⟨60, "ab"⟩, ⟨120, "abc"⟩] = ["abc"] := by
  exact C5_burst_single_request ⟨0, "a"⟩ [⟨60, "ab"⟩, ⟨120, "abc"⟩]
    (by decide) (by decide)

/-- Claim C6: when the fetch for a query settles with a transport
failure, a non-ok HTTP status, or an unparsable body, the suggestion
list, the hidden field and the input text are left exactly as they
were; the only state change is that the fetch is no longer in flight,
so in particular no retry is scheduled. The modelled callback is a
total function, reflecting that no exception reaches any caller. -/
theorem C6_error_outcome_frame (st : St) (q : String) (o : FetchOutcome)
    (he : o.isErr = true) :
    (applyResponse q o st).suggestions = st.suggestions ∧
    (applyResponse q o st).hidden = st.hidden ∧
    (applyResponse q o st).text = st.text ∧
    (applyResponse q o st).inflight = st.inflight.erase q := by
  by_cases hm : q ∈ st.inflight
  · cases o with
    | success js => simp [FetchOutcome.isErr] at he
    | transportError => simp [applyResponse, hm]
    | httpError => simp [applyResponse, hm]
    | parseError => simp [applyResponse, hm]
  · simp [applyResponse, hm, List.erase_of_not_mem hm]

/-- Claim C6 witness: an in-flight query a answered with a non-ok
status leaves the populated suggestion list and the hidden value 1
untouched and only clears the in-flight entry. -/
theorem C6_error_outcome_frame_w :
    (applyResponse "a" FetchOutcome.httpError
        ⟨"a", [⟨"Alice", some "1"⟩], "1", ["a"]⟩).suggestions
      = [⟨"Alice", some "1"⟩] ∧
    (applyResponse "a" FetchOutcome.httpError
        ⟨"a", [⟨"Alice", some "1"⟩], "1", ["a"]⟩).hidden = "1" ∧
    (applyResponse "a" FetchOutcome.httpError
        ⟨"a", [⟨"Alice", some "1"⟩], "1", ["a"]⟩).text = "a" ∧
    (applyResponse "a" FetchOutcome.httpError
        ⟨"a", [⟨"Alice", some "1"⟩], "1", ["a"]⟩).inflight = [] := by
  exact C6_error_outcome_frame ⟨"a", [⟨"Alice", some "1"⟩], "1", ["a"]⟩
    "a" FetchOutcome.httpError rfl

/-- Claim C7: selection resolution is idempotent: it reads only the
input text and the suggestion list, neither of which it modifies, so
running it twice in a row leaves the same hidden-field value as
running it once. -/
theorem C7_resolution_idempotent (st : St) :
    (resolveSelection (resolveSelection st)).hidden = (resolveSelection st).hidden := rfl

/-- Claim C8: a successful, parsable response to an in-flight query
replaces the entire suggestion list with exactly one option per
returned result, in server-provided order, with no re-sorting and no
de-duplication; the hidden field and input text are unchanged. -/
theorem C8_success_replaces_all (st : St) (q : String) (js : List SearchResult)
    (hin : st.inflight.contains q = true) :
    (applyResponse q (FetchOutcome.success js) st).suggestions = js.map mkOption ∧
    (applyResponse q (FetchOutcome.success js) st).hidden = st.hidden ∧
    (applyResponse q (FetchOutcome.success js) st).text = st.text := by
  have hm : q ∈ st.inflight := by simpa using hin
  simp [applyResponse, hm]

/-- Claim C8 witness: a response carrying an unsorted list with a
duplicate entry replaces the old suggestion fully and verbatim, order
and duplicate preserved. -/
theorem C8_success_replaces_all_w :
    (applyResponse "b"
        (FetchOutcome.success [⟨"2", "Bob"⟩, ⟨"1", "Alice"⟩, ⟨"2", "Bob"⟩])
        ⟨"b", [⟨"Old", some "9"⟩], "9", ["b"]⟩).suggestions
      = [⟨"Bob", some "2"⟩, ⟨"Alice", some "1"⟩, ⟨"Bob", some "2"⟩] := by
  exact (C8_success_replaces_all ⟨"b", [⟨"Old", some "9"⟩], "9", ["b"]⟩ "b"
    [⟨"2", "Bob"⟩, ⟨"1", "Alice"⟩, ⟨"2", "Bob"⟩] rfl).1

/-- Claim C9: when the first option whose value equals the input text
is o (so in particular when several options match, o is the first in
list order), resolution writes o's stored id when it has a nonempty
one, and writes the empty string when o carries no id at all. -/
theorem C9_first_match_wins (st : St) (o : OptionEl)
    (h : st.suggestions.find? (fun x => x.value == st.text) = some o) :
    (∀ s, o.dataId = some s → s ≠ "" → (resolveSelection st).hidden = s) ∧
    (o.dataId = none → (resolveSelection st).hidden = "") := by
  have hh : (resolveSelection st).hidden = o.effId := by
    simp [resolveSelection, findId_eq_find?, h]
  constructor
  · intro s hs hne
    rw [hh]
    simp [OptionEl.effId, hs, hne]
  · intro hn
    rw [hh]
    simp [OptionEl.effId, hn]

/-- Claim C9 witness: with two options both labelled Bob, resolution
picks the first one's id 1; with a first matching option carrying no
data-id attribute, resolution writes the empty string. -/
theorem C9_first_match_wins_w :
    (resolveSelection ⟨"Bob", [⟨"Bob", some "1"⟩, ⟨"Bob", some "2"⟩], "", []⟩).hidden
      = "1" ∧
    (resolveSelection ⟨"Bob", [⟨"Bob", none⟩, ⟨"Bob", some "2"⟩], "", []⟩).hidden
      = "" := by
  refine ⟨(C9_first_match_wins ⟨"Bob", [⟨"Bob", some "1"⟩, ⟨"Bob", some "2"⟩], "", []⟩
             ⟨"Bob", some "1"⟩ (by decide)).1 "1" rfl (by decide),
          (C9_first_match_wins ⟨"Bob", [⟨"Bob", none⟩, ⟨"Bob", some "2"⟩], "", []⟩
             ⟨"Bob", none⟩ (by decide)).2 rfl⟩

/-- Claim C10: the empty-query fast path clears only the suggestion
list, leaving the hidden field and the input text unchanged; and in
the whole event model, no event other than the change or blur
resolution event ever writes the hidden field. -/
theorem C10_empty_query_frame (st : St) :
    ((step st (Ev.fire "")).suggestions = [] ∧
     (step st (Ev.fire "")).hidden = st.hidden ∧
     (step st (Ev.fire "")).text = st.text) ∧
    (∀ ev : Ev, ev ≠ Ev.resolve → (step st ev).hidden = st.hidden) := by
  refine ⟨⟨by simp [step, fireSearch], by simp [step, fireSearch], by simp [step, fireSearch]⟩, ?_⟩
  intro ev hev
  cases ev with
  | input s => rfl
  | fire q =>
    by_cases hq : q = "" <;> simp [step, fireSearch, hq]
  | respond q o =>
    by_cases hm : q ∈ st.inflight
    · cases o <;> simp [step, applyResponse, hm]
    · simp [step, applyResponse, hm]
  | resolve => exact absurd rfl hev

/-- Claim C10 witness: an empty-query fire on a state holding hidden
value 1 clears the suggestions and keeps the hidden value. -/
theorem C10_empty_query_frame_w :
    (step ⟨"x", [⟨"Alice", some "1"⟩], "1", []⟩ (Ev.fire "")).hidden = "1" ∧
    (step ⟨"x", [⟨"Alice", some "1"⟩], "1", []⟩ (Ev.fire "")).suggestions = [] := by
  exact ⟨(C10_empty_query_frame ⟨"x", [⟨"Alice", some "1"⟩], "1", []⟩).2
            (Ev.fire "") (by decide),
         (C10_empty_query_frame ⟨"x", [⟨"Alice", some "1"⟩], "1", []⟩).1.1⟩

end RadioSpins
